import Mathlib

/-!
Shallow embedding of the configuration-synthesis pipeline of
`scripts/update_vscode_includes.py` (class `IntelliSenseConfigGenerator` and its
collaborators `ConanDataParser`, `CMakeCacheReader`, `CompilerDetector`).

Modelling conventions:

* File contents are lists of bytes (`List Nat`); file and directory listings are
  association lists keyed by file name.
* The SHA-256 digest over the concatenated bytes of the sorted metadata files is
  modelled by the concatenated byte sequence itself; theorems that speak about
  the hex digest quantify over an arbitrary digest function applied to it.
* Python strings are Lean `String`s.  All string primitives used by the script
  (`strip`, `split`, `replace`, `lower`, prefix/suffix matching, `os.path.join`
  in POSIX form) are re-implemented below over `String.data` so that every
  definition evaluates by kernel reduction.
* The regular-expression matches of `ConanDataParser.parse_data_file` are
  represented by their captured groups (`DataFileMatches`): one optional capture
  per regex of the source, in source order.  `CMakeCacheReader.read_cache` is
  modelled line-by-line: a `KEY:TYPE=` pattern matches the first line that
  contains the marker followed by at least one character, exactly like
  `re.search` with `(.+)` on multi-line input.
* `CompilerDetector.detect_compiler` performs subprocess probes; its result and
  `platform.system()` are inputs of the model (`HostEnv`), as is the success of
  `Path.unlink` during orphan cleanup.
* The preset name extracted from the build-directory path by
  `_extract_preset_name` is carried as an attribute of `BuildDir`.
* Writes of `c_cpp_properties.json` are recorded as a list of write events so
  that "the file is not opened for writing" is expressible.
-/

/-- Bytes of a file. -/
abbrev ByteSeq := List Nat

/-- Lexicographic comparison of character lists by code point; this is the order
Python's `sorted` uses on `str`. -/
def lexLe : List Char → List Char → Bool
  | [], _ => true
  | _ :: _, [] => false
  | a :: as, b :: bs => if a < b then true else if a = b then lexLe as bs else false

/-- Python `a <= b` on strings, in the kernel-computable form used throughout
this development. -/
def strLe (a b : String) : Prop := lexLe a.data b.data = true

instance : DecidableRel strLe :=
  fun a b => inferInstanceAs (Decidable (lexLe a.data b.data = true))

/-- Python `sorted` on a list of strings. -/
def sortStrings (l : List String) : List String := List.insertionSort strLe l

/-- Python `sorted(set(...))`: the sorted, duplicate-free enumeration of a set
accumulated as a list. -/
def sortedSet (l : List String) : List String := sortStrings l.dedup

/-- Python `str.strip()` (whitespace from both ends). -/
def pyStrip (s : String) : String :=
  ⟨((s.data.dropWhile Char.isWhitespace).reverse.dropWhile Char.isWhitespace).reverse⟩

/-- Python `str.strip(chr(34))`: double quotes removed from both ends. -/
def stripQuotes (s : String) : String :=
  ⟨((s.data.dropWhile fun c => c = '"').reverse.dropWhile fun c => c = '"').reverse⟩

/-- Suffix of `l` after the first occurrence of `marker`; `none` when `marker`
does not occur in `l`. -/
def afterFirst (marker : List Char) : List Char → Option (List Char)
  | [] => if marker = [] then some [] else none
  | c :: rest =>
    if marker.isPrefixOf (c :: rest) then some ((c :: rest).drop marker.length)
    else afterFirst marker rest

/-- Python `str.split(chr(59))` on the character list: split at every semicolon,
keeping empty pieces. -/
def splitSemisList : List Char → List (List Char)
  | [] => [[]]
  | c :: rest =>
    if c = ';' then [] :: splitSemisList rest
    else
      match splitSemisList rest with
      | [] => [[c]]
      | h :: t => (c :: h) :: t

/-- Python `str.split(chr(59))` on strings. -/
def splitSemis (s : String) : List String :=
  (splitSemisList s.data).map fun l => ⟨l⟩

/-- Helper for Python `str.split()`: split at every whitespace character. -/
def splitWSList : List Char → List (List Char)
  | [] => [[]]
  | c :: rest =>
    if c.isWhitespace then [] :: splitWSList rest
    else
      match splitWSList rest with
      | [] => [[c]]
      | h :: t => (c :: h) :: t

/-- Python `str.split()` (split on whitespace runs, dropping empty pieces). -/
def pySplitWS (s : String) : List String :=
  ((splitWSList s.data).filter fun l => l ≠ []).map fun l => ⟨l⟩

/-- Python `str.replace` specialised to the pattern dollar-open-brace with empty
replacement, scanning left to right as `str.replace` does. -/
def removeTemplateOpen : List Char → List Char
  | [] => []
  | [c] => [c]
  | c1 :: c2 :: rest =>
    if c1 = '$' ∧ c2 = Char.ofNat 123 then removeTemplateOpen rest
    else c1 :: removeTemplateOpen (c2 :: rest)

/-- Python `str.replace` specialised to the pattern close-brace with empty
replacement. -/
def removeCloseBrace : List Char → List Char
  | [] => []
  | c :: rest =>
    if c = Char.ofNat 125 then removeCloseBrace rest
    else c :: removeCloseBrace rest

/-- ASCII lower-casing of one character (Python `str.lower` restricted to the
ASCII names appearing in build types). -/
def asciiLowerChar (c : Char) : Char :=
  if 'A' ≤ c ∧ c ≤ 'Z' then Char.ofNat (c.toNat + 32) else c

/-- Python `str.lower()`. -/
def asciiLower (s : String) : String := ⟨s.data.map asciiLowerChar⟩

/-- POSIX `os.path.join` for two components, as used to resolve templated
include directories. -/
def osPathJoin (a b : String) : String :=
  if b.data.head? = some '/' then b
  else if a = "" then b
  else if a.data.getLast? = some '/' then a ++ b
  else a ++ "/" ++ b

/-- Captured groups of the regular expressions of
`ConanDataParser.parse_data_file`, in source order: the directly quoted
`*_INCLUDE_DIRS_*` path, the `*_PACKAGE_FOLDER_*` value, the suffix of a
`PACKAGE_FOLDER`-templated `*_INCLUDE_DIRS_*` path, the raw
`*_COMPILE_DEFINITIONS_*` text, the raw `*_FRAMEWORK_DIRS_*` text and the raw
`*_FRAMEWORKS_*` text.  `none` means the regex did not match the file. -/
structure DataFileMatches where
  includeDirsQuoted : Option String
  pkgFolder : Option String
  includeDirsTemplated : Option String
  compileDefinitions : Option String
  frameworkDirs : Option String
  frameworks : Option String
deriving DecidableEq

/-- Result dictionary of `ConanDataParser.parse_data_file`. -/
structure ParsedData where
  include_dirs : List String
  defines : List String
  framework_dirs : List String
  frameworks : List String
deriving DecidableEq

/-- Model of `ConanDataParser.parse_data_file`: include-directory extraction with the
direct-quote shape, the package-folder-templated shape, the
package-folder/include default, then defines and framework extraction. -/
def parse_data_file (m : DataFileMatches) : ParsedData :=
  let inc0 : List String :=
    match m.includeDirsQuoted with
    | some g => [⟨removeCloseBrace (removeTemplateOpen g.data)⟩]
    | none => []
  let incs : List String :=
    match m.pkgFolder with
    | some pkg =>
      match m.includeDirsTemplated with
      | some suf => [osPathJoin pkg suf]
      | none => if inc0 = [] then [osPathJoin pkg ("include")] else inc0
    | none => inc0
  let defs : List String :=
    match m.compileDefinitions with
    | some g =>
      let s := stripQuotes g
      if s = "" then [] else pySplitWS s
    | none => []
  let fdirs : List String :=
    match m.frameworkDirs with
    | some g =>
      let s := stripQuotes g
      if s = "" then [] else splitSemis s
    | none => []
  let fws : List String :=
    match m.frameworks with
    | some g =>
      let s := stripQuotes g
      if s = "" then [] else splitSemis s
    | none => []
  ⟨incs, defs, fdirs, fws⟩

/-- One file of a `generators` directory: its name, its raw bytes (hashed for
change detection) and the regex captures of its text (parsed for metadata). -/
structure GenFile where
  name : String
  bytes : ByteSeq
  captures : DataFileMatches
deriving DecidableEq

/-- The glob pattern `*-<buildtype lower>-*-data.cmake` used both by
`scan_generators_directory` and `_hash_directory`. -/
def matchesDataPattern (buildType : String) (fileName : String) : Bool :=
  let suff := "-data.cmake".data
  let nm := fileName.data
  suff.isSuffixOf nm &&
    (afterFirst (('-' :: (asciiLower buildType).data) ++ ['-'])
      (nm.take (nm.length - suff.length))).isSome

/-- Aggregated sets of `ConanDataParser.scan_generators_directory`, kept as
lists with multiplicity; every consumer sorts and deduplicates. -/
structure ConanData where
  include_dirs : List String
  defines : List String
  framework_dirs : List String
deriving DecidableEq

/-- Model of `ConanDataParser.scan_generators_directory`: union of the parse results of
every data file matching the build type. -/
def scan_generators_directory (gen : List GenFile) (buildType : String) : ConanData :=
  let files := gen.filter fun f => matchesDataPattern buildType f.name
  { include_dirs := (files.map fun f => (parse_data_file f.captures).include_dirs).flatten
    defines := (files.map fun f => (parse_data_file f.captures).defines).flatten
    framework_dirs := (files.map fun f => (parse_data_file f.captures).framework_dirs).flatten }

/-- Variables extracted by `CMakeCacheReader.read_cache`. -/
structure CacheData where
  cxxCompiler : Option String
  buildType : Option String
  configurationTypes : Option String
  generatorName : Option String
deriving DecidableEq

/-- One `KEY:TYPE=(.+)` regex of `read_cache` applied to the cache file: the
first line containing the marker followed by at least one character yields that
suffix, stripped. -/
def findCacheValue (marker : String) : List String → Option String
  | [] => none
  | line :: rest =>
    match afterFirst marker.data line.data with
    | some suffix => if suffix = [] then findCacheValue marker rest else some (pyStrip ⟨suffix⟩)
    | none => findCacheValue marker rest

/-- Model of `CMakeCacheReader.read_cache` over the cache file's lines. -/
def read_cache (lines : List String) : CacheData :=
  { cxxCompiler := findCacheValue ("CMAKE_CXX_COMPILER:FILEPATH=") lines
    buildType := findCacheValue ("CMAKE_BUILD_TYPE:STRING=") lines
    configurationTypes := findCacheValue ("CMAKE_CONFIGURATION_TYPES:STRING=") lines
    generatorName := findCacheValue ("CMAKE_GENERATOR:INTERNAL=") lines }

/-- One discovered build directory: the preset name derived from its path, the
lines of its `CMakeCache.txt` (when the file exists) and the contents of its
`generators` subdirectory (when it exists). -/
structure BuildDir where
  preset : String
  cacheFile : Option (List String)
  generators : Option (List GenFile)
deriving DecidableEq

/-- Host-dependent inputs: the compiler probe result and IntelliSense mode of
`CompilerDetector.detect_compiler`, whether `platform.system()` is Darwin, and
which hash-record files fail to unlink during cleanup. -/
structure HostEnv where
  detectedCompiler : Option String
  intellisenseMode : String
  isDarwin : Bool
  unlinkFails : String → Bool

/-- One IntelliSense configuration entry of `c_cpp_properties.json`. -/
structure ConfigEntry where
  name : String
  configurationProvider : String
  includePath : List String
  defines : List String
  compilerPath : String
  cStandard : String
  cppStandard : String
  intelliSenseMode : String
  macFrameworkPath : Option (List String)
deriving DecidableEq

/-- Model of `IntelliSenseConfigGenerator._build_include_path`. -/
def build_include_path (cd : ConanData) : List String :=
  ["${workspaceFolder}/**", "${workspaceFolder}/include", "${workspaceFolder}/src"] ++
    sortedSet cd.include_dirs

/-- Model of `IntelliSenseConfigGenerator._build_defines`. -/
def build_defines (buildType : String) (cd : ConanData) : List String :=
  ["UNICODE", "_UNICODE"] ++
    [(if buildType = "Debug" then "_DEBUG" else "NDEBUG")] ++
    sortedSet cd.defines

/-- The stored hash-record files of the `.vscode` directory: name to digest. -/
abbrev Records := List (String × ByteSeq)

/-- Read a hash-record file, `none` when it does not exist. -/
def readRecord (recs : Records) (name : String) : Option ByteSeq :=
  (recs.find? fun r => decide (r.1 = name)).map fun r => r.2

/-- Create or overwrite a hash-record file. -/
def writeRecord (recs : Records) (name : String) (v : ByteSeq) : Records :=
  if recs.any fun r => decide (r.1 = name) then
    recs.map fun r => if r.1 = name then (name, v) else r
  else recs ++ [(name, v)]

/-- Sorting key of `sorted(directory.glob(pattern))`: paths inside one
directory compare by file name. -/
def fileLe (a b : GenFile) : Prop := strLe a.name b.name

instance : DecidableRel fileLe :=
  fun a b => inferInstanceAs (Decidable (strLe a.name b.name))


/-- Model of `IntelliSenseConfigGenerator._hash_directory`: the digest input is the
concatenation of the bytes of the matching data files in sorted-name order. -/
def hash_directory (buildType : String) (files : List GenFile) : ByteSeq :=
  (((files.filter fun f => matchesDataPattern buildType f.name).insertionSort fileLe).map
    GenFile.bytes).flatten

/-- Name of the stored hash record of a (preset, build type) pair. -/
def hash_file_name (presetName buildType : String) : String :=
  ".conan_hash_" ++ presetName ++ "_" ++ buildType

/-- What `_create_configuration` read and computed for one processed
(preset, build type) pair: the record name, the stored digest found at
processing time, and the freshly computed digest. -/
structure PairTrace where
  hashName : String
  stored : Option ByteSeq
  computed : ByteSeq
deriving DecidableEq

/-- Result of `IntelliSenseConfigGenerator._create_configuration`. -/
structure CreateResult where
  config? : Option ConfigEntry
  changed : Bool
  records : Records
  trace? : Option PairTrace
deriving DecidableEq

/-- Change decision of `_create_configuration`: `has_changes` starts `True` and
is reset exactly when a stored record exists whose digest equals the computed
one. -/
def pair_changed (stored : Option ByteSeq) (contentHash : ByteSeq) : Bool :=
  match stored with
  | some cached => if cached = contentHash then false else true
  | none => true

/-- The compiler path chosen by `_create_configuration`: the build-cache value
when it is truthy, otherwise the detected compiler
(`cache_data.get(..) or detected_compiler` in the source). -/
def chosen_compiler (cacheData : CacheData) (detected : Option String) : Option String :=
  match cacheData.cxxCompiler with
  | some s => if s = "" then detected else some s
  | none => detected

/-- The configuration dictionary assembled by `_create_configuration`. -/
def mk_config_entry (env : HostEnv) (presetName buildType : String)
    (cacheData : CacheData) (conanData : ConanData) : ConfigEntry :=
  { name := presetName ++ "-" ++ buildType
    configurationProvider := "ms-vscode.cmake-tools"
    includePath := build_include_path conanData
    defines := build_defines buildType conanData
    compilerPath := (chosen_compiler cacheData env.detectedCompiler).getD ""
    cStandard := "c17"
    cppStandard := "c++20"
    intelliSenseMode := env.intellisenseMode
    macFrameworkPath :=
      if env.isDarwin ∧ conanData.framework_dirs ≠ [] then
        some (sortedSet conanData.framework_dirs)
      else none }

/-- Model of `IntelliSenseConfigGenerator._create_configuration`. -/
def create_configuration (env : HostEnv) (recs : Records) (bd : BuildDir)
    (presetName buildType : String) (cacheData : CacheData) : CreateResult :=
  match bd.generators with
  | none => ⟨none, false, recs, none⟩
  | some gen =>
    let contentHash := hash_directory buildType gen
    let hashName := hash_file_name presetName buildType
    let stored := readRecord recs hashName
    let hasChanges := pair_changed stored contentHash
    let config := mk_config_entry env presetName buildType cacheData
      (scan_generators_directory gen buildType)
    let recs' := if hasChanges = true then writeRecord recs hashName contentHash else recs
    ⟨some config, hasChanges, recs', some ⟨hashName, stored, contentHash⟩⟩

/-- Diagnostic-stream warning emitted when an orphaned hash record cannot be
removed. -/
def warnMessage (name : String) : String :=
  "Warning: Could not remove " ++ name

/-- Model of `IntelliSenseConfigGenerator._cleanup_orphaned_hashes`: every record whose
name carries the preset's prefix and whose build-type suffix is not in the
valid set is unlinked; a failing unlink leaves the record and produces a
warning, and the scan continues. -/
def cleanup_orphaned_hashes (presetName : String) (validBuildTypes : List String)
    (unlinkFails : String → Bool) (recs : Records) : Records × List String :=
  let pre := ".conan_hash_" ++ presetName ++ "_"
  let isOrphan : String → Bool := fun n =>
    pre.data.isPrefixOf n.data &&
      !(decide ((⟨n.data.drop pre.data.length⟩ : String) ∈ validBuildTypes))
  ( recs.filter fun r => !(isOrphan r.1 && !(unlinkFails r.1)),
    (recs.filter fun r => isOrphan r.1 && unlinkFails r.1).map fun r => warnMessage r.1 )

/-- Accumulated result of the per-build-type loop of
`_process_build_directory`. -/
structure TypesResult where
  configs : List ConfigEntry
  changed : Bool
  records : Records
  trace : List PairTrace
deriving DecidableEq

/-- The loop of `_process_build_directory` over the configuration types of a
multi-configuration generator: falsy build types are skipped, configurations
accumulate in order, the change flag is the disjunction of the per-pair
flags. -/
def process_types (env : HostEnv) (bd : BuildDir) (presetName : String)
    (cacheData : CacheData) (recs : Records) : List String → TypesResult
  | [] => ⟨[], false, recs, []⟩
  | bt :: rest =>
    if bt = "" then process_types env bd presetName cacheData recs rest
    else
      let c := create_configuration env recs bd presetName bt cacheData
      let r := process_types env bd presetName cacheData c.records rest
      match c.config? with
      | some cfg => ⟨cfg :: r.configs, c.changed || r.changed, r.records, c.trace?.toList ++ r.trace⟩
      | none => ⟨r.configs, r.changed, r.records, c.trace?.toList ++ r.trace⟩

/-- Result of `_process_build_directory`. -/
structure DirResult where
  configs : List ConfigEntry
  changed : Bool
  records : Records
  warnings : List String
  trace : List PairTrace
deriving DecidableEq

/-- Model of `IntelliSenseConfigGenerator._process_build_directory`: a missing cache
file skips the directory; a configuration-type list with more than one entry
takes the multi-configuration path, otherwise the single active build type
(default Debug) is processed; both paths end with orphan cleanup. -/
def process_build_directory (env : HostEnv) (recs : Records) (bd : BuildDir) : DirResult :=
  match bd.cacheFile with
  | none => ⟨[], false, recs, [], []⟩
  | some lines =>
    let cacheData := read_cache lines
    let configTypes := splitSemis (cacheData.configurationTypes.getD "")
    if configTypes.length > 1 then
      let r := process_types env bd bd.preset cacheData recs configTypes
      let cu := cleanup_orphaned_hashes bd.preset configTypes env.unlinkFails r.records
      ⟨r.configs, r.changed, cu.1, cu.2, r.trace⟩
    else
      let bt := cacheData.buildType.getD ("Debug")
      let c := create_configuration env recs bd bd.preset bt cacheData
      let cu := cleanup_orphaned_hashes bd.preset [bt] env.unlinkFails c.records
      match c.config? with
      | some cfg => ⟨[cfg], c.changed, cu.1, cu.2, c.trace?.toList⟩
      | none => ⟨[], false, cu.1, cu.2, c.trace?.toList⟩

/-- The loop of `generate_configuration` over all discovered build
directories. -/
def process_dirs (env : HostEnv) (recs : Records) : List BuildDir → DirResult
  | [] => ⟨[], false, recs, [], []⟩
  | bd :: rest =>
    let d := process_build_directory env recs bd
    let r := process_dirs env d.records rest
    ⟨d.configs ++ r.configs, d.changed || r.changed, r.records, d.warnings ++ r.warnings,
      d.trace ++ r.trace⟩

/-- The persistent state the script touches: the stored hash records and the
configuration document. -/
structure ScriptState where
  records : Records
  document : Option (Nat × List ConfigEntry × String)
deriving DecidableEq

/-- The full IDE configuration document: version marker, entries, comment. -/
def mkDocument (configs : List ConfigEntry) : Nat × List ConfigEntry × String :=
  (4, configs,
    "CMake Tools extension provides primary IntelliSense via compile_commands.json. Explicit paths serve as fallback.")

/-- Result of one run of `generate_configuration`: the exit code, the final
state, every write of the configuration document, the warnings and the
per-pair hash trace. -/
structure RunResult where
  exitCode : Nat
  state : ScriptState
  docWrites : List (Nat × List ConfigEntry × String)
  warnings : List String
  configs : List ConfigEntry
  trace : List PairTrace
deriving DecidableEq

/-- Model of `IntelliSenseConfigGenerator.generate_configuration`: process every build
directory, then return 1 when no configurations were found, write the document
and return 0 when some pair changed, and return 2 leaving the document alone
otherwise. -/
def generate_configuration (env : HostEnv) (bds : List BuildDir) (st : ScriptState) :
    RunResult :=
  let d := process_dirs env st.records bds
  if d.configs.isEmpty then
    ⟨1, ⟨d.records, st.document⟩, [], d.warnings, d.configs, d.trace⟩
  else if d.changed then
    let doc := mkDocument d.configs
    ⟨0, ⟨d.records, some doc⟩, [doc], d.warnings, d.configs, d.trace⟩
  else
    ⟨2, ⟨d.records, st.document⟩, [], d.warnings, d.configs, d.trace⟩

/-!
Concrete hosts, files and workspaces used by the closed theorems below.
-/

/-- A Linux host without a detected compiler whose unlinks always succeed. -/
def hostLinux : HostEnv := ⟨none, "linux-gcc-x64", false, fun _ => false⟩

/-- A Linux host with a detected compiler. -/
def hostLinuxDet : HostEnv := ⟨some ("/det/gcc"), "linux-gcc-x64", false, fun _ => false⟩

/-- A metadata file none of whose regexes matched. -/
def noCaptures : DataFileMatches := ⟨none, none, none, none, none, none⟩

/-- A generators data file for the Debug build type. -/
def zlibDebugFile : GenFile := ⟨"zlib-debug-x86-data.cmake", [1, 2, 3], noCaptures⟩

/-- A single-configuration Debug build directory of preset `a_b`. -/
def presetAB : BuildDir := ⟨"a_b", some ["CMAKE_BUILD_TYPE:STRING=Debug"], some [zlibDebugFile]⟩

/-- A single-configuration Debug build directory of preset `a`. -/
def presetA : BuildDir := ⟨"a", some ["CMAKE_BUILD_TYPE:STRING=Debug"], some [zlibDebugFile]⟩

/-- The state before any run: no hash records, no document. -/
def emptyState : ScriptState := ⟨[], none⟩

/-- A build directory whose cache reports a multi-configuration generator. -/
def multiDir : BuildDir :=
  ⟨"pre", some ["CMAKE_CONFIGURATION_TYPES:STRING=Debug;Release"], some []⟩

/-- A build directory whose cache holds a whitespace-only compiler value. -/
def blankCompilerDir : BuildDir := ⟨"p", some ["CMAKE_CXX_COMPILER:FILEPATH= "], some []⟩

/-- An unlink oracle under which only the `Old` record fails to delete. -/
def cleanupFails : String → Bool := fun n => decide (n = ".conan_hash_p_Old")

/-- Hash records exercising orphan cleanup. -/
def cleanupRecords : Records :=
  [(".conan_hash_p_Old", [1]), (".conan_hash_p_Gone", [2]),
   (".conan_hash_p_Debug", [3]), ("other", [4])]

/-- Two generators data files with unsorted names. -/
def genFileA : GenFile := ⟨"a-debug-x-data.cmake", [1, 2], noCaptures⟩

/-- Second of the two generators data files with unsorted names. -/
def genFileB : GenFile := ⟨"b-debug-x-data.cmake", [5, 6], noCaptures⟩

/-!
Order lemmas for the sorting relations, and the facts about the pipeline the
claim theorems rest on.
-/

theorem lexLe_total : ∀ a b : List Char, lexLe a b = true ∨ lexLe b a = true := by
  intro a
  induction a with
  | nil => intro b; left; rfl
  | cons x xs ih =>
    intro b
    cases b with
    | nil => right; rfl
    | cons y ys =>
      rcases lt_trichotomy x y with h | h | h
      · left; simp [lexLe, h]
      · subst h
        rcases ih ys with h' | h'
        · left; simp [lexLe, h']
        · right; simp [lexLe, h']
      · right; simp [lexLe, h]

theorem lexLe_trans :
    ∀ a b c : List Char, lexLe a b = true → lexLe b c = true → lexLe a c = true := by
  intro a
  induction a with
  | nil => intro b c _ _; rfl
  | cons x xs ih =>
    intro b c h1 h2
    cases b with
    | nil => simp [lexLe] at h1
    | cons y ys =>
      cases c with
      | nil => simp [lexLe] at h2
      | cons z zs =>
        by_cases hxy : x < y
        · by_cases hyz : y < z
          · simp [lexLe, lt_trans hxy hyz]
          · simp [lexLe, hyz] at h2
            rcases h2 with ⟨hyz', _⟩
            subst hyz'
            simp [lexLe, hxy]
        · simp [lexLe, hxy] at h1
          rcases h1 with ⟨hxy', h1'⟩
          subst hxy'
          by_cases hyz : x < z
          · simp [lexLe, hyz]
          · simp [lexLe, hyz] at h2 ⊢
            rcases h2 with ⟨hyz', h2'⟩
            subst hyz'
            exact ⟨rfl, ih _ _ h1' h2'⟩

theorem lexLe_antisymm :
    ∀ a b : List Char, lexLe a b = true → lexLe b a = true → a = b := by
  intro a
  induction a with
  | nil =>
    intro b _ h2
    cases b with
    | nil => rfl
    | cons y ys => simp [lexLe] at h2
  | cons x xs ih =>
    intro b h1 h2
    cases b with
    | nil => simp [lexLe] at h1
    | cons y ys =>
      by_cases hxy : x < y
      · simp [lexLe, lt_asymm hxy, ne_of_gt hxy] at h2
      · simp [lexLe, hxy] at h1
        rcases h1 with ⟨hxy', h1'⟩
        subst hxy'
        simp [lexLe, hxy] at h2
        rw [ih _ h1' h2]

instance : IsTotal String strLe := ⟨fun a b => lexLe_total a.data b.data⟩

instance : IsTrans String strLe := ⟨fun _ _ _ h1 h2 => lexLe_trans _ _ _ h1 h2⟩

instance : IsTotal GenFile fileLe := ⟨fun a b => lexLe_total a.name.data b.name.data⟩

instance : IsTrans GenFile fileLe := ⟨fun _ _ _ h1 h2 => lexLe_trans _ _ _ h1 h2⟩

theorem strLe_antisymm {a b : String} (h1 : strLe a b) (h2 : strLe b a) : a = b := by
  cases a with
  | mk da =>
    cases b with
    | mk db =>
      have := lexLe_antisymm da db h1 h2
      simp [this]

theorem sorted_fileLe_strict {l : List GenFile} (hs : List.Sorted fileLe l)
    (hn : (l.map GenFile.name).Nodup) :
    l.Pairwise fun a b => fileLe a b ∧ a.name ≠ b.name :=
  hs.and (List.pairwise_map.mp hn)

/-- C3. For a fixed set of metadata files the digest input of `_hash_directory`
is independent of the enumeration order of the directory: the matching files
are sorted by name before their bytes enter the digest, so any digest function
applied to it yields the same value on any permutation of the listing. -/
theorem hash_directory_order_independent (digest : ByteSeq → String)
    (buildType : String) (l1 l2 : List GenFile) (hperm : l1.Perm l2)
    (hnodup : (l1.map GenFile.name).Nodup) :
    digest (hash_directory buildType l1) = digest (hash_directory buildType l2) := by
  suffices h : hash_directory buildType l1 = hash_directory buildType l2 by rw [h]
  unfold hash_directory
  have hpf : (l1.filter fun f => matchesDataPattern buildType f.name).Perm
      (l2.filter fun f => matchesDataPattern buildType f.name) := hperm.filter _
  have hn1 : ((l1.filter fun f => matchesDataPattern buildType f.name).map GenFile.name).Nodup :=
    hnodup.sublist ((List.filter_sublist l1).map GenFile.name)
  have hn2 : ((l2.filter fun f => matchesDataPattern buildType f.name).map GenFile.name).Nodup :=
    (hpf.map GenFile.name).nodup_iff.mp hn1
  haveI : IsAntisymm GenFile fun a b => fileLe a b ∧ a.name ≠ b.name :=
    ⟨fun _ _ h1 h2 => (h1.2 (strLe_antisymm h1.1 h2.1)).elim⟩
  have key :
      (l1.filter fun f => matchesDataPattern buildType f.name).insertionSort fileLe =
        (l2.filter fun f => matchesDataPattern buildType f.name).insertionSort fileLe := by
    apply List.eq_of_perm_of_sorted (r := fun a b => fileLe a b ∧ a.name ≠ b.name)
    · exact (List.perm_insertionSort _ _).trans (hpf.trans (List.perm_insertionSort _ _).symm)
    · exact sorted_fileLe_strict (List.sorted_insertionSort _ _)
        (((List.perm_insertionSort fileLe _).map GenFile.name).nodup_iff.mpr hn1)
    · exact sorted_fileLe_strict (List.sorted_insertionSort _ _)
        (((List.perm_insertionSort fileLe _).map GenFile.name).nodup_iff.mpr hn2)
  rw [key]

/-- Witness for C3 at a concrete two-file directory listed in both orders. -/
theorem hash_directory_order_independent_witness :
    (fun l => String.mk (l.map fun _ => 'x')) (hash_directory ("Debug") [genFileB, genFileA]) =
      (fun l => String.mk (l.map fun _ => 'x')) (hash_directory ("Debug") [genFileA, genFileB]) :=
  hash_directory_order_independent (fun l => String.mk (l.map fun _ => 'x')) ("Debug")
    [genFileB, genFileA] [genFileA, genFileB] (by decide) (by decide)

/-- C10. The defines list of every synthesized entry starts with UNICODE and
_UNICODE, its third element is _DEBUG exactly for the Debug build type and
NDEBUG for every other build type, and the remainder is the package-metadata
define set in sorted order. -/
theorem build_defines_layout (buildType : String) (cd : ConanData) :
    (build_defines buildType cd).take 2 = ["UNICODE", "_UNICODE"] ∧
    (build_defines buildType cd).drop 2 =
      (if buildType = "Debug" then "_DEBUG" else "NDEBUG") :: sortedSet cd.defines ∧
    (build_defines buildType cd).drop 3 = sortedSet cd.defines ∧
    List.Sorted strLe ((build_defines buildType cd).drop 3) ∧
    (∀ x, x ∈ (build_defines buildType cd).drop 3 ↔ x ∈ cd.defines) := by
  refine ⟨rfl, rfl, rfl, ?_, ?_⟩
  · exact List.sorted_insertionSort strLe _
  · intro x
    simp [build_defines, sortedSet, sortStrings]

/-- C7. The configuration entry returned by `_create_configuration` does not
depend on the stored hash records: metadata is parsed fresh on every call and
the record only decides the change flag, which is true exactly when no record
holding the freshly computed digest exists. -/
theorem create_configuration_record_independent (env : HostEnv) (bd : BuildDir)
    (presetName buildType : String) (cacheData : CacheData) (recs1 recs2 : Records) :
    (create_configuration env recs1 bd presetName buildType cacheData).config? =
      (create_configuration env recs2 bd presetName buildType cacheData).config? ∧
    ∀ gen, bd.generators = some gen →
      ((create_configuration env recs1 bd presetName buildType cacheData).changed = true ↔
        readRecord recs1 (hash_file_name presetName buildType) ≠
          some (hash_directory buildType gen)) := by
  constructor
  · cases hg : bd.generators <;> simp [create_configuration, hg]
  · intro gen hg
    simp only [create_configuration, hg]
    cases hr : readRecord recs1 (hash_file_name presetName buildType) with
    | none => simp [pair_changed]
    | some cached =>
      by_cases hc : cached = hash_directory buildType gen <;> simp [pair_changed, hc]

/-- Witness for C7: the entry is the same with and without a matching record,
and the flag flips. -/
theorem create_configuration_record_independent_witness :
    (create_configuration hostLinux [] presetAB ("a_b") ("Debug") (read_cache
        ["CMAKE_BUILD_TYPE:STRING=Debug"])).config? =
      (create_configuration hostLinux [(".conan_hash_a_b_Debug", [1, 2, 3])] presetAB
        ("a_b") ("Debug") (read_cache ["CMAKE_BUILD_TYPE:STRING=Debug"])).config? ∧
    ((create_configuration hostLinux [] presetAB ("a_b") ("Debug") (read_cache
        ["CMAKE_BUILD_TYPE:STRING=Debug"])).changed = true ↔
      readRecord [] (hash_file_name ("a_b") ("Debug")) ≠
        some (hash_directory ("Debug") [zlibDebugFile])) :=
  ⟨(create_configuration_record_independent hostLinux presetAB ("a_b") ("Debug")
      (read_cache ["CMAKE_BUILD_TYPE:STRING=Debug"]) []
      [(".conan_hash_a_b_Debug", [1, 2, 3])]).1,
   (create_configuration_record_independent hostLinux presetAB ("a_b") ("Debug")
      (read_cache ["CMAKE_BUILD_TYPE:STRING=Debug"]) []
      [(".conan_hash_a_b_Debug", [1, 2, 3])]).2 [zlibDebugFile] rfl⟩

theorem removeTemplateOpen_eq_self {l : List Char} (h : Char.ofNat 123 ∉ l) :
    removeTemplateOpen l = l := by
  induction l with
  | nil => rfl
  | cons c rest ih =>
    cases rest with
    | nil => rfl
    | cons c2 rest2 =>
      have h2 : Char.ofNat 123 ∉ c2 :: rest2 := fun hm => h (List.mem_cons_of_mem _ hm)
      have hne : ¬(c = '$' ∧ c2 = Char.ofNat 123) := by
        rintro ⟨_, he⟩
        exact h (by simp [he])
      simp only [removeTemplateOpen, if_neg hne]
      rw [ih h2]

theorem removeCloseBrace_eq_self {l : List Char} (h : Char.ofNat 125 ∉ l) :
    removeCloseBrace l = l := by
  induction l with
  | nil => rfl
  | cons c rest ih =>
    have hc : ¬ c = Char.ofNat 125 := fun he => h (by simp [he])
    have h2 : Char.ofNat 125 ∉ rest := fun hm => h (List.mem_cons_of_mem _ hm)
    simp only [removeCloseBrace, if_neg hc]
    rw [ih h2]

/-- C8. `parse_data_file` handles the two include-directory shapes: a directly
quoted path free of template braces is kept as-is; a package-folder-templated
path is resolved by joining the parsed package folder with the captured
suffix; and when neither shape matched but a package folder was parsed, the
result defaults to the package folder joined with `include`. -/
theorem parse_data_file_include_shapes (m : DataFileMatches) (p pkg suf : String) :
    (m.includeDirsQuoted = some p → m.includeDirsTemplated = none →
      Char.ofNat 123 ∉ p.data → Char.ofNat 125 ∉ p.data →
      (parse_data_file m).include_dirs = [p]) ∧
    (m.pkgFolder = some pkg → m.includeDirsTemplated = some suf →
      (parse_data_file m).include_dirs = [osPathJoin pkg suf]) ∧
    (m.includeDirsQuoted = none → m.includeDirsTemplated = none →
      m.pkgFolder = some pkg →
      (parse_data_file m).include_dirs = [osPathJoin pkg ("include")]) := by
  refine ⟨?_, ?_, ?_⟩
  · intro h1 h2 h3 h4
    cases hpf : m.pkgFolder <;>
      simp [parse_data_file, h1, h2, hpf, removeTemplateOpen_eq_self h3,
        removeCloseBrace_eq_self h4]
  · intro h1 h2
    simp [parse_data_file, h1, h2]
  · intro h1 h2 h3
    simp [parse_data_file, h1, h2, h3]

/-- Witness for C8: one concrete file per include-directory shape. -/
theorem parse_data_file_include_shapes_witness :
    (parse_data_file ⟨some ("/direct/inc"), none, none, none, none, none⟩).include_dirs =
      ["/direct/inc"] ∧
    (parse_data_file ⟨some ("$\x7bZ_PACKAGE_FOLDER_X\x7d/include"), some ("/pkg/z"),
        some ("include"), none, none, none⟩).include_dirs = ["/pkg/z/include"] ∧
    (parse_data_file ⟨none, some ("/pkg/z"), none, none, none, none⟩).include_dirs =
      ["/pkg/z/include"] :=
  ⟨(parse_data_file_include_shapes ⟨some ("/direct/inc"), none, none, none, none, none⟩
      ("/direct/inc") ("") ("")).1 rfl rfl (by decide) (by decide),
   (parse_data_file_include_shapes ⟨some ("$\x7bZ_PACKAGE_FOLDER_X\x7d/include"),
      some ("/pkg/z"), some ("include"), none, none, none⟩ ("") ("/pkg/z")
      ("include")).2.1 rfl rfl,
   (parse_data_file_include_shapes ⟨none, some ("/pkg/z"), none, none, none, none⟩
      ("") ("/pkg/z") ("")).2.2 rfl rfl rfl⟩

/-- C9 counterexample. A cache file whose compiler line holds only whitespace
produces a present compiler-path entry (the empty string after stripping), yet
the synthesized entry's compilerPath is the detected compiler, not that cache
value. -/
theorem compiler_path_ignores_blank_cache_entry :
    (read_cache ["CMAKE_CXX_COMPILER:FILEPATH= "]).cxxCompiler = some "" ∧
    ((create_configuration hostLinuxDet [] blankCompilerDir ("p") ("Debug")
        (read_cache ["CMAKE_CXX_COMPILER:FILEPATH= "])).config?).map
      ConfigEntry.compilerPath = some ("/det/gcc") ∧
    ("/det/gcc" : String) ≠ "" := by
  refine ⟨rfl, rfl, by decide⟩

/-- C9 as amended. The build-cache compiler path takes precedence exactly when
it is present and nonempty; when it is absent or empty (a whitespace-only cache
value strips to the empty string) the platform-detected compiler is used, and
the field degrades to the empty string when that is also absent. -/
theorem compiler_path_precedence_amended (env : HostEnv) (recs : Records)
    (bd : BuildDir) (presetName buildType : String) (cacheData : CacheData)
    (gen : List GenFile) (hg : bd.generators = some gen) :
    (∀ cp, cacheData.cxxCompiler = some cp → cp ≠ "" →
      ((create_configuration env recs bd presetName buildType cacheData).config?).map
        ConfigEntry.compilerPath = some cp) ∧
    ((cacheData.cxxCompiler = none ∨ cacheData.cxxCompiler = some "") →
      ((create_configuration env recs bd presetName buildType cacheData).config?).map
        ConfigEntry.compilerPath = some (env.detectedCompiler.getD "")) := by
  constructor
  · intro cp hc hne
    simp [create_configuration, hg, mk_config_entry, chosen_compiler, hc, hne]
  · rintro (hc | hc) <;>
      simp [create_configuration, hg, mk_config_entry, chosen_compiler, hc]

/-- Witness for the amended C9 at a nonempty cache value and at a blank one. -/
theorem compiler_path_precedence_amended_witness :
    ((create_configuration hostLinuxDet [] blankCompilerDir ("p") ("Debug")
        ⟨some ("/usr/bin/clang++"), none, none, none⟩).config?).map
      ConfigEntry.compilerPath = some ("/usr/bin/clang++") ∧
    ((create_configuration hostLinuxDet [] blankCompilerDir ("p") ("Debug")
        ⟨none, none, none, none⟩).config?).map ConfigEntry.compilerPath =
      some ("/det/gcc") :=
  ⟨(compiler_path_precedence_amended hostLinuxDet [] blankCompilerDir ("p") ("Debug")
      ⟨some ("/usr/bin/clang++"), none, none, none⟩ [] rfl).1 ("/usr/bin/clang++") rfl
      (by decide),
   (compiler_path_precedence_amended hostLinuxDet [] blankCompilerDir ("p") ("Debug")
      ⟨none, none, none, none⟩ [] rfl).2 (Or.inl rfl)⟩

theorem pair_changed_iff (stored : Option ByteSeq) (h : ByteSeq) :
    pair_changed stored h = true ↔ stored ≠ some h := by
  cases stored with
  | none => simp [pair_changed]
  | some cached => by_cases hc : cached = h <;> simp [pair_changed, hc]

theorem create_spec (env : HostEnv) (recs : Records) (bd : BuildDir)
    (presetName buildType : String) (cacheData : CacheData) :
    ((create_configuration env recs bd presetName buildType cacheData).changed = true ↔
      ∃ t ∈ (create_configuration env recs bd presetName buildType cacheData).trace?.toList,
        t.stored ≠ some t.computed) ∧
    ((create_configuration env recs bd presetName buildType cacheData).changed = true →
      (create_configuration env recs bd presetName buildType cacheData).config? ≠ none) ∧
    ((create_configuration env recs bd presetName buildType cacheData).config? = none →
      (create_configuration env recs bd presetName buildType cacheData).trace? = none) := by
  cases hg : bd.generators with
  | none => simp [create_configuration, hg]
  | some gen =>
    refine ⟨?_, ?_, ?_⟩
    · simp [create_configuration, hg, pair_changed_iff]
    · simp [create_configuration, hg]
    · simp [create_configuration, hg]

theorem process_types_cons_some (env : HostEnv) (bd : BuildDir) (presetName : String)
    (cacheData : CacheData) (recs : Records) (bt : String) (rest : List String)
    (cfg : ConfigEntry) (hbt : ¬ bt = "")
    (hc : (create_configuration env recs bd presetName bt cacheData).config? = some cfg) :
    process_types env bd presetName cacheData recs (bt :: rest) =
      ⟨cfg :: (process_types env bd presetName cacheData
          (create_configuration env recs bd presetName bt cacheData).records rest).configs,
        (create_configuration env recs bd presetName bt cacheData).changed ||
          (process_types env bd presetName cacheData
            (create_configuration env recs bd presetName bt cacheData).records rest).changed,
        (process_types env bd presetName cacheData
          (create_configuration env recs bd presetName bt cacheData).records rest).records,
        (create_configuration env recs bd presetName bt cacheData).trace?.toList ++
          (process_types env bd presetName cacheData
            (create_configuration env recs bd presetName bt cacheData).records rest).trace⟩ := by
  simp only [process_types, if_neg hbt, hc]

theorem process_types_cons_none (env : HostEnv) (bd : BuildDir) (presetName : String)
    (cacheData : CacheData) (recs : Records) (bt : String) (rest : List String)
    (hbt : ¬ bt = "")
    (hc : (create_configuration env recs bd presetName bt cacheData).config? = none) :
    process_types env bd presetName cacheData recs (bt :: rest) =
      ⟨(process_types env bd presetName cacheData
          (create_configuration env recs bd presetName bt cacheData).records rest).configs,
        (process_types env bd presetName cacheData
          (create_configuration env recs bd presetName bt cacheData).records rest).changed,
        (process_types env bd presetName cacheData
          (create_configuration env recs bd presetName bt cacheData).records rest).records,
        (create_configuration env recs bd presetName bt cacheData).trace?.toList ++
          (process_types env bd presetName cacheData
            (create_configuration env recs bd presetName bt cacheData).records rest).trace⟩ := by
  simp only [process_types, if_neg hbt, hc]

theorem process_types_spec (env : HostEnv) (bd : BuildDir) (presetName : String)
    (cacheData : CacheData) :
    ∀ (types : List String) (recs : Records),
      ((process_types env bd presetName cacheData recs types).changed = true ↔
        ∃ t ∈ (process_types env bd presetName cacheData recs types).trace,
          t.stored ≠ some t.computed) ∧
      ((process_types env bd presetName cacheData recs types).changed = true →
        (process_types env bd presetName cacheData recs types).configs ≠ []) := by
  intro types
  induction types with
  | nil => intro recs; simp [process_types]
  | cons bt rest ih =>
    intro recs
    by_cases hbt : bt = ""
    · simpa [process_types, hbt] using ih recs
    · cases hc : (create_configuration env recs bd presetName bt cacheData).config? with
      | some cfg =>
        rw [process_types_cons_some env bd presetName cacheData recs bt rest cfg hbt hc]
        constructor
        · simp only [Bool.or_eq_true, List.mem_append]
          rw [(create_spec env recs bd presetName bt cacheData).1,
            ((ih (create_configuration env recs bd presetName bt cacheData).records).1)]
          constructor
          · rintro (⟨t, ht, hne⟩ | ⟨t, ht, hne⟩)
            · exact ⟨t, Or.inl ht, hne⟩
            · exact ⟨t, Or.inr ht, hne⟩
          · rintro ⟨t, ht | ht, hne⟩
            · exact Or.inl ⟨t, ht, hne⟩
            · exact Or.inr ⟨t, ht, hne⟩
        · intro _
          simp
      | none =>
        rw [process_types_cons_none env bd presetName cacheData recs bt rest hbt hc]
        have htr : (create_configuration env recs bd presetName bt cacheData).trace? = none :=
          (create_spec env recs bd presetName bt cacheData).2.2 hc
        simpa [htr] using ih (create_configuration env recs bd presetName bt cacheData).records

theorem process_build_directory_spec (env : HostEnv) (recs : Records) (bd : BuildDir) :
    ((process_build_directory env recs bd).changed = true ↔
      ∃ t ∈ (process_build_directory env recs bd).trace, t.stored ≠ some t.computed) ∧
    ((process_build_directory env recs bd).changed = true →
      (process_build_directory env recs bd).configs ≠ []) := by
  cases hcf : bd.cacheFile with
  | none => simp [process_build_directory, hcf]
  | some lines =>
    by_cases hlen :
        (splitSemis ((read_cache lines).configurationTypes.getD "")).length > 1
    · have h := process_types_spec env bd bd.preset (read_cache lines)
        (splitSemis ((read_cache lines).configurationTypes.getD "")) recs
      simp only [process_build_directory, hcf, if_pos hlen]
      exact h
    · simp only [process_build_directory, hcf, if_neg hlen]
      cases hc : (create_configuration env recs bd bd.preset
          ((read_cache lines).buildType.getD ("Debug")) (read_cache lines)).config? with
      | some cfg =>
        simp only [hc]
        have h := create_spec env recs bd bd.preset
          ((read_cache lines).buildType.getD ("Debug")) (read_cache lines)
        exact ⟨h.1, fun _ => by simp⟩
      | none =>
        simp only [hc]
        have htr := (create_spec env recs bd bd.preset
          ((read_cache lines).buildType.getD ("Debug")) (read_cache lines)).2.2 hc
        simp [htr]

theorem process_dirs_spec (env : HostEnv) :
    ∀ (bds : List BuildDir) (recs : Records),
      ((process_dirs env recs bds).changed = true ↔
        ∃ t ∈ (process_dirs env recs bds).trace, t.stored ≠ some t.computed) ∧
      ((process_dirs env recs bds).changed = true →
        (process_dirs env recs bds).configs ≠ []) := by
  intro bds
  induction bds with
  | nil => intro recs; simp [process_dirs]
  | cons bd rest ih =>
    intro recs
    have hd := process_build_directory_spec env recs bd
    have hr := ih (process_build_directory env recs bd).records
    constructor
    · simp only [process_dirs, Bool.or_eq_true, List.mem_append]
      rw [hd.1, hr.1]
      constructor
      · rintro (⟨t, ht, hne⟩ | ⟨t, ht, hne⟩)
        · exact ⟨t, Or.inl ht, hne⟩
        · exact ⟨t, Or.inr ht, hne⟩
      · rintro ⟨t, ht | ht, hne⟩
        · exact Or.inl ⟨t, ht, hne⟩
        · exact Or.inr ⟨t, ht, hne⟩
    · simp only [process_dirs, Bool.or_eq_true]
      rintro (hch | hch)
      · simp [hd.2 hch]
      · simp [hr.2 hch]

theorem generate_eq_none_found (env : HostEnv) (bds : List BuildDir) (st : ScriptState)
    (he : (process_dirs env st.records bds).configs.isEmpty = true) :
    generate_configuration env bds st =
      ⟨1, ⟨(process_dirs env st.records bds).records, st.document⟩, [],
        (process_dirs env st.records bds).warnings,
        (process_dirs env st.records bds).configs,
        (process_dirs env st.records bds).trace⟩ := by
  simp only [generate_configuration]
  rw [if_pos he]

theorem generate_eq_changed (env : HostEnv) (bds : List BuildDir) (st : ScriptState)
    (he : ¬ (process_dirs env st.records bds).configs.isEmpty = true)
    (hch : (process_dirs env st.records bds).changed = true) :
    generate_configuration env bds st =
      ⟨0, ⟨(process_dirs env st.records bds).records,
          some (mkDocument (process_dirs env st.records bds).configs)⟩,
        [mkDocument (process_dirs env st.records bds).configs],
        (process_dirs env st.records bds).warnings,
        (process_dirs env st.records bds).configs,
        (process_dirs env st.records bds).trace⟩ := by
  simp only [generate_configuration]
  rw [if_neg he, if_pos hch]

theorem generate_eq_no_changes (env : HostEnv) (bds : List BuildDir) (st : ScriptState)
    (he : ¬ (process_dirs env st.records bds).configs.isEmpty = true)
    (hch : ¬ (process_dirs env st.records bds).changed = true) :
    generate_configuration env bds st =
      ⟨2, ⟨(process_dirs env st.records bds).records, st.document⟩, [],
        (process_dirs env st.records bds).warnings,
        (process_dirs env st.records bds).configs,
        (process_dirs env st.records bds).trace⟩ := by
  simp only [generate_configuration]
  rw [if_neg he, if_neg hch]

/-- C1. The configuration document is written exactly when some processed
(preset, build type) pair's computed content digest differs from its stored
record (or no record existed); when no pair changed nothing is written and the
stored document is untouched. -/
theorem generate_writes_iff_pair_changed (env : HostEnv) (bds : List BuildDir)
    (st : ScriptState) :
    ((generate_configuration env bds st).docWrites ≠ [] ↔
      ∃ t ∈ (generate_configuration env bds st).trace, t.stored ≠ some t.computed) ∧
    ((generate_configuration env bds st).docWrites = [] →
      (generate_configuration env bds st).state.document = st.document) := by
  have h := process_dirs_spec env bds st.records
  by_cases he : (process_dirs env st.records bds).configs.isEmpty = true
  · rw [generate_eq_none_found env bds st he]
    have hch : ¬ (process_dirs env st.records bds).changed = true := fun hc =>
      (h.2 hc) (List.isEmpty_iff.mp he)
    refine ⟨⟨fun hw => absurd rfl hw, fun hex => absurd (h.1.mpr hex) hch⟩, fun _ => rfl⟩
  · by_cases hch : (process_dirs env st.records bds).changed = true
    · rw [generate_eq_changed env bds st he hch]
      exact ⟨⟨fun _ => h.1.mp hch, fun _ => by simp⟩, fun hw => absurd hw (by simp)⟩
    · rw [generate_eq_no_changes env bds st he hch]
      refine ⟨⟨fun hw => absurd rfl hw, fun hex => absurd (h.1.mpr hex) hch⟩, fun _ => rfl⟩

/-- Witness for C1 at a run with no build directories: nothing is written and
the document is untouched. -/
theorem generate_writes_iff_pair_changed_witness :
    (generate_configuration hostLinux [] emptyState).state.document =
      emptyState.document :=
  (generate_writes_iff_pair_changed hostLinux [] emptyState).2 rfl

/-- C6. `generate_configuration` returns exactly one of three results: 1 when
zero entries were synthesized (regardless of change flags), 0 when entries
exist and some pair changed, and 2 when entries exist but no pair changed, in
which case nothing is written and the document keeps its prior content. -/
theorem generate_configuration_tristate (env : HostEnv) (bds : List BuildDir)
    (st : ScriptState) :
    ((generate_configuration env bds st).exitCode = 0 ∨
      (generate_configuration env bds st).exitCode = 1 ∨
      (generate_configuration env bds st).exitCode = 2) ∧
    ((generate_configuration env bds st).exitCode = 1 ↔
      (generate_configuration env bds st).configs = []) ∧
    ((generate_configuration env bds st).exitCode = 0 ↔
      (generate_configuration env bds st).configs ≠ [] ∧
      ∃ t ∈ (generate_configuration env bds st).trace, t.stored ≠ some t.computed) ∧
    ((generate_configuration env bds st).exitCode = 2 ↔
      (generate_configuration env bds st).configs ≠ [] ∧
      ¬ ∃ t ∈ (generate_configuration env bds st).trace, t.stored ≠ some t.computed) ∧
    ((generate_configuration env bds st).exitCode = 2 →
      (generate_configuration env bds st).docWrites = [] ∧
      (generate_configuration env bds st).state.document = st.document) := by
  have h := process_dirs_spec env bds st.records
  by_cases he : (process_dirs env st.records bds).configs.isEmpty = true
  · rw [generate_eq_none_found env bds st he]
    have hch : ¬ (process_dirs env st.records bds).changed = true := fun hc =>
      (h.2 hc) (List.isEmpty_iff.mp he)
    refine ⟨Or.inr (Or.inl rfl), ⟨fun _ => List.isEmpty_iff.mp he, fun _ => rfl⟩,
      ⟨fun hc => absurd hc (by simp), fun ⟨hne, _⟩ => absurd (List.isEmpty_iff.mp he) hne⟩,
      ⟨fun hc => absurd hc (by simp), fun ⟨hne, _⟩ => absurd (List.isEmpty_iff.mp he) hne⟩,
      fun hc => absurd hc (by simp)⟩
  · have hne : (process_dirs env st.records bds).configs ≠ [] := by
      intro hnil
      exact he (by simp [hnil])
    by_cases hch : (process_dirs env st.records bds).changed = true
    · rw [generate_eq_changed env bds st he hch]
      refine ⟨Or.inl rfl, ⟨fun hc => absurd hc (by simp), fun hc => absurd hc hne⟩,
        ⟨fun _ => ⟨hne, h.1.mp hch⟩, fun _ => rfl⟩,
        ⟨fun hc => absurd hc (by simp), fun ⟨_, hnex⟩ => absurd (h.1.mp hch) hnex⟩,
        fun hc => absurd hc (by simp)⟩
    · rw [generate_eq_no_changes env bds st he hch]
      refine ⟨Or.inr (Or.inr rfl), ⟨fun hc => absurd hc (by simp), fun hc => absurd hc hne⟩,
        ⟨fun hc => absurd hc (by simp), fun ⟨_, hex⟩ => absurd (h.1.mpr hex) hch⟩,
        ⟨fun _ => ⟨hne, fun hex => hch (h.1.mpr hex)⟩, fun _ => rfl⟩,
        fun _ => ⟨rfl, rfl⟩⟩

/-- Witness for C6 at a run with no build directories: the no-entries result. -/
theorem generate_configuration_tristate_witness :
    (generate_configuration hostLinux [] emptyState).exitCode = 1 :=
  (generate_configuration_tristate hostLinux [] emptyState).2.1.mpr rfl

theorem process_types_names (env : HostEnv) (bd : BuildDir) (presetName : String)
    (cacheData : CacheData) (gen : List GenFile) (hg : bd.generators = some gen) :
    ∀ (types : List String) (recs : Records), (∀ t ∈ types, t ≠ "") →
      (process_types env bd presetName cacheData recs types).configs.map ConfigEntry.name =
        types.map fun t => presetName ++ "-" ++ t := by
  intro types
  induction types with
  | nil => intro recs _; rfl
  | cons bt rest ih =>
    intro recs hne
    have hbt : ¬ bt = "" := hne bt (List.mem_cons_self bt rest)
    have hc : (create_configuration env recs bd presetName bt cacheData).config? =
        some (mk_config_entry env presetName bt cacheData
          (scan_generators_directory gen bt)) := by
      simp [create_configuration, hg]
    rw [process_types_cons_some env bd presetName cacheData recs bt rest _ hbt hc]
    simp only [List.map_cons]
    rw [ih _ fun t ht => hne t (List.mem_cons_of_mem bt ht)]
    rfl

/-- C4. With a cache file whose configuration-type list splits into more than
one (nonempty) entry, `_process_build_directory` synthesizes one entry per
listed type, named preset-type; with a single-configuration cache, it produces
exactly one entry from the active build type, defaulting to Debug when
CMAKE_BUILD_TYPE is absent.  A generators directory must exist. -/
theorem process_build_directory_fanout (env : HostEnv) (recs : Records) (bd : BuildDir)
    (lines : List String) (gen : List GenFile)
    (hcf : bd.cacheFile = some lines) (hg : bd.generators = some gen) :
    ((splitSemis ((read_cache lines).configurationTypes.getD "")).length > 1 →
      (∀ t ∈ splitSemis ((read_cache lines).configurationTypes.getD ""), t ≠ "") →
      (process_build_directory env recs bd).configs.map ConfigEntry.name =
        (splitSemis ((read_cache lines).configurationTypes.getD "")).map
          fun t => bd.preset ++ "-" ++ t) ∧
    (¬ (splitSemis ((read_cache lines).configurationTypes.getD "")).length > 1 →
      (process_build_directory env recs bd).configs.map ConfigEntry.name =
        [bd.preset ++ "-" ++ ((read_cache lines).buildType.getD ("Debug"))]) := by
  constructor
  · intro hlen hne
    simp only [process_build_directory, hcf, if_pos hlen]
    exact process_types_names env bd bd.preset (read_cache lines) gen hg _ recs hne
  · intro hlen
    simp only [process_build_directory, hcf, if_neg hlen]
    have hc : (create_configuration env recs bd bd.preset
        ((read_cache lines).buildType.getD ("Debug")) (read_cache lines)).config? =
          some (mk_config_entry env bd.preset
            ((read_cache lines).buildType.getD ("Debug")) (read_cache lines)
            (scan_generators_directory gen
              ((read_cache lines).buildType.getD ("Debug")))) := by
      simp [create_configuration, hg]
    rw [hc]
    rfl

/-- Witness for C4: a Debug;Release cache yields exactly the two entries
pre-Debug and pre-Release, and a single-configuration Debug cache yields one
Debug entry. -/
theorem process_build_directory_fanout_witness :
    (process_build_directory hostLinux [] multiDir).configs.map ConfigEntry.name =
      ["pre-Debug", "pre-Release"] ∧
    (process_build_directory hostLinux [] presetA).configs.map ConfigEntry.name =
      ["a-Debug"] :=
  ⟨(process_build_directory_fanout hostLinux [] multiDir
      ["CMAKE_CONFIGURATION_TYPES:STRING=Debug;Release"] [] rfl rfl).1
      (by decide) (by decide),
   (process_build_directory_fanout hostLinux [] presetA
      ["CMAKE_BUILD_TYPE:STRING=Debug"] [zlibDebugFile] rfl rfl).2 (by decide)⟩

/-- C5. Orphan cleanup: a stored record survives exactly when it is not an
orphan of the preset (its name carries the preset's record prefix and its
build-type suffix is outside the valid set) whose unlink succeeds; every
orphan whose unlink fails yields a warning on the diagnostic stream, and the
cleanup itself is a total function: the run continues past failures. -/
theorem cleanup_orphaned_hashes_spec (presetName : String)
    (validBuildTypes : List String) (unlinkFails : String → Bool) (recs : Records)
    (r : String × ByteSeq) (hr : r ∈ recs) :
    (r ∈ (cleanup_orphaned_hashes presetName validBuildTypes unlinkFails recs).1 ↔
      ¬((".conan_hash_" ++ presetName ++ "_").data.isPrefixOf r.1.data = true ∧
        (⟨r.1.data.drop (".conan_hash_" ++ presetName ++ "_").data.length⟩ : String) ∉
          validBuildTypes ∧
        unlinkFails r.1 = false)) ∧
    ((".conan_hash_" ++ presetName ++ "_").data.isPrefixOf r.1.data = true →
      (⟨r.1.data.drop (".conan_hash_" ++ presetName ++ "_").data.length⟩ : String) ∉
        validBuildTypes →
      unlinkFails r.1 = true →
      warnMessage r.1 ∈ (cleanup_orphaned_hashes presetName validBuildTypes unlinkFails recs).2) := by
  constructor
  · simp only [cleanup_orphaned_hashes, List.mem_filter, hr, true_and]
    cases hpre : (".conan_hash_" ++ presetName ++ "_").data.isPrefixOf r.1.data <;>
      cases hmem : decide ((⟨r.1.data.drop (".conan_hash_" ++ presetName ++ "_").data.length⟩ :
          String) ∈ validBuildTypes) <;>
      cases hf : unlinkFails r.1 <;>
      simp_all
  · intro hpre hmem hf
    simp only [cleanup_orphaned_hashes, List.mem_map]
    refine ⟨r, ?_, rfl⟩
    simp only [List.mem_filter, hr, true_and, hpre, hf, Bool.and_eq_true, true_and]
    simpa using hmem

/-- Witness for C5: a deletable orphan disappears, a failing one warns. -/
theorem cleanup_orphaned_hashes_spec_witness :
    ((".conan_hash_p_Gone", ([2] : ByteSeq)) ∉
      (cleanup_orphaned_hashes ("p") ["Debug"] cleanupFails cleanupRecords).1) ∧
    warnMessage (".conan_hash_p_Old") ∈
      (cleanup_orphaned_hashes ("p") ["Debug"] cleanupFails cleanupRecords).2 :=
  ⟨fun hmem =>
    ((cleanup_orphaned_hashes_spec ("p") ["Debug"] cleanupFails cleanupRecords
        (".conan_hash_p_Gone", [2]) (by decide)).1.mp hmem)
      ⟨by decide, by decide, by decide⟩,
   (cleanup_orphaned_hashes_spec ("p") ["Debug"] cleanupFails cleanupRecords
      (".conan_hash_p_Old", [1]) (by decide)).2 (by decide) (by decide) (by decide)⟩

/-- C2 does not hold of the code: with build directories of presets `a_b` and
`a` (in that order), the first run succeeds and persists both hash records,
but preset `a`'s orphan cleanup glob also matches preset `a_b`'s record, reads
its build-type suffix as `b_Debug` and deletes it; the second run, with no
filesystem change at all, therefore reports changes (exit 0), not the
no-changes result (exit 2). -/
theorem second_run_reports_changes_after_preset_alias_cleanup :
    (generate_configuration hostLinux [presetAB, presetA] emptyState).exitCode = 0 ∧
    readRecord (generate_configuration hostLinux [presetAB, presetA] emptyState).state.records
      (hash_file_name ("a_b") ("Debug")) = none ∧
    (generate_configuration hostLinux [presetAB, presetA]
        (generate_configuration hostLinux [presetAB, presetA] emptyState).state).exitCode = 0 ∧
    (generate_configuration hostLinux [presetAB, presetA]
        (generate_configuration hostLinux [presetAB, presetA] emptyState).state).exitCode ≠ 2 :=
  ⟨rfl, rfl, rfl, by decide⟩
